import Mathlib

/-!
Verification development for the resharing-orchestration core of
rockx-dkg-cli (files `internal/cli/handle_resharing.go` and
`internal/messenger/client.go`), as a shallow embedding in Lean 4.

Conventions of the embedding:
* Go byte slices are `List Nat` (each entry < 256 where relevant).
* Go `int` is `Int`; unsigned operator IDs (`types.OperatorID`, an unsigned
  64-bit alias in the ssv-spec dependency) are `Nat`, with the Go integer
  conversion made explicit as reduction modulo 2^64.
* Go maps keyed by operator ID are association lists with last-write-wins
  insertion (`mapInsert`).  Go randomizes map iteration order; the embedding
  iterates in insertion order, and every claim settled below depends only on
  order-independent facts (membership, counts, lengths) or on singleton maps.
* Fallible Go functions return `Except String α`; the HTTP world is an
  explicit environment (`Env`) giving each POST's outcome, and the network
  calls a run performs are recorded as an explicit event trace.
-/

namespace RockxDkg

/-- Go `strings.Trim(s, " ")`: remove leading and trailing space characters. -/
def trimSpaces (s : String) : String :=
  String.mk (((s.data.dropWhile (fun c => c.toNat = 32)).reverse.dropWhile
    (fun c => c.toNat = 32)).reverse)

/-- Splitting a character list on a separator character, matching Go
`strings.Split` semantics (`Split("", sep) = [""]`, empty fields kept). -/
def splitOnChar (sep : Char) : List Char → List (List Char)
  | [] => [[]]
  | c :: rest =>
    let r := splitOnChar sep rest
    if c = sep then [] :: r
    else
      match r with
      | [] => [[c]]
      | g :: gs => (c :: g) :: gs

/-- Go `strings.Split(s, "=")`. -/
def goSplitEq (s : String) : List String :=
  (splitOnChar (Char.ofNat 61) s.data).map String.mk

/-- Decimal digit run to its value; `none` when empty or a non-digit occurs. -/
def parseDigits (cs : List Char) : Option Nat :=
  match cs with
  | [] => none
  | _ =>
    if cs.all (fun c => 48 ≤ c.toNat ∧ c.toNat ≤ 57) then
      some (cs.foldl (fun acc c => 10 * acc + (c.toNat - 48)) 0)
    else none

/-- 64-bit signed range check, as Go `strconv.Atoi` performs on a 64-bit
platform (out-of-range input is an error). -/
def int64InRange (v : Int) : Option Int :=
  if -(2 ^ 63) ≤ v ∧ v ≤ 2 ^ 63 - 1 then some v else none

/-- Go `strconv.Atoi`: optional sign, then one or more decimal digits making
up the whole string, within the signed 64-bit range.  No surrounding space is
accepted. -/
def goAtoi (s : String) : Option Int :=
  match s.data with
  | [] => none
  | c :: rest =>
    if c.toNat = 43 then (parseDigits rest).bind (fun n => int64InRange n)
    else if c.toNat = 45 then (parseDigits rest).bind (fun n => int64InRange (-(n : Int)))
    else (parseDigits (c :: rest)).bind (fun n => int64InRange n)

/-- The Go conversion `types.OperatorID(opID)` from `int`: reduction of the
two's-complement value modulo 2^64 (the operator ID type is an unsigned
64-bit integer in the ssv-spec dependency). -/
def toOperatorID (i : Int) : Nat :=
  (i % (2 ^ 64 : Int)).toNat

/-- Value of a hex digit character (both cases accepted, as in Go
`encoding/hex`). -/
def hexVal (c : Char) : Option Nat :=
  if 48 ≤ c.toNat ∧ c.toNat ≤ 57 then some (c.toNat - 48)
  else if 97 ≤ c.toNat ∧ c.toNat ≤ 102 then some (c.toNat - 87)
  else if 65 ≤ c.toNat ∧ c.toNat ≤ 70 then some (c.toNat - 55)
  else none

/-- Pairwise hex decoding of a character list; `none` on odd length or any
non-hex character, as Go `hex.DecodeString` errors in exactly those cases. -/
def hexDecodeList : List Char → Option (List Nat)
  | [] => some []
  | [_] => none
  | c1 :: c2 :: rest =>
    match hexVal c1, hexVal c2, hexDecodeList rest with
    | some h, some l, some bs => some ((16 * h + l) :: bs)
    | _, _, _ => none

/-- Go `hex.DecodeString`. -/
def hexDecode (s : String) : Option (List Nat) :=
  hexDecodeList s.data

/-- The single error text the model uses for a failed `hex.DecodeString`
(Go distinguishes invalid-byte from odd-length texts; no claim inspects the
wording, only whether decoding fails). -/
def hexErrMsg : String := "encoding/hex: invalid input"

/-- Lowercase hex digit character, as produced by Go `hex.EncodeToString`. -/
def hexDigit (n : Nat) : Char :=
  if n < 10 then Char.ofNat (48 + n) else Char.ofNat (87 + n)

/-- Go `hex.EncodeToString` over a byte list. -/
def hexEncode (bs : List Nat) : String :=
  String.mk ((bs.map (fun b => [hexDigit (b / 16 % 16), hexDigit (b % 16)])).flatten)

/-- Errors raised while parsing operator specification tokens in
`parseResharingRequest`. -/
inductive ParseError where
  /-- `fmt.Errorf("operator %s is not in the form of key=value", op)`. -/
  | malformed (token : String)
  /-- The error returned by `strconv.Atoi` on the ID part, passed through
  unchanged by the Go code (`return err`). -/
  | atoiFailure (idPart : String)
deriving DecidableEq, Repr

/-- The message text of a parse error, as the Go errors render it.  Go's
out-of-range `strconv` errors say "value out of range" instead of
"invalid syntax"; the model does not distinguish the two texts (no claim
depends on them). -/
def parseErrorMsg : ParseError → String
  | .malformed t => "operator " ++ t ++ " is not in the form of key=value"
  | .atoiFailure s => "strconv.Atoi: parsing \"" ++ s ++ "\": invalid syntax"

/-- Last-write-wins insertion into an association list, modelling assignment
`m[k] = v` on a Go map (determinized to insertion order). -/
def mapInsert (m : List (Nat × String)) (k : Nat) (v : String) : List (Nat × String) :=
  if m.any (fun p => p.1 = k) then
    m.map (fun p => if p.1 = k then (k, v) else p)
  else m ++ [(k, v)]

/-- Lookup in the association-list model of a Go map. -/
def lookup (m : List (Nat × String)) (k : Nat) : Option String :=
  (m.find? (fun p => p.1 = k)).map Prod.snd

/-- Go map indexing `m[k]` (zero value `""` when the key is absent). -/
def mapGet (m : List (Nat × String)) (k : Nat) : String :=
  match lookup m k with
  | some a => a
  | none => ""

/-- Go comma-ok membership test `_, ok := m[k]`. -/
def mapHas (m : List (Nat × String)) (k : Nat) : Bool :=
  match lookup m k with
  | some _ => true
  | none => false

/-- The per-token body of the parsing loops in `parseResharingRequest`:
trim spaces, split on `=` into exactly two parts, `strconv.Atoi` the ID part,
then store `m[types.OperatorID(opID)] = pair[1]`. -/
def parseOperatorList : List String → List (Nat × String) →
    Except ParseError (List (Nat × String))
  | [], m => .ok m
  | op :: rest, m =>
    match goSplitEq (trimSpaces op) with
    | [idPart, addrPart] =>
      match goAtoi idPart with
      | none => .error (.atoiFailure idPart)
      | some opID => parseOperatorList rest (mapInsert m (toOperatorID opID) addrPart)
    | _ => .error (.malformed (trimSpaces op))

/-- The CLI flag values `HandleResharing` reads from its `cli.Context`:
`threshold`, `validator-pk`, repeated `operator`, repeated `old-operator`. -/
structure CliInput where
  threshold : Int
  validatorPK : String
  operator : List String
  oldOperator : List String
deriving DecidableEq, Repr

/-- The `ResharingRequest` struct of `handle_resharing.go`. -/
structure ResharingRequest where
  Operators : List (Nat × String)
  Threshold : Int
  ValidatorPK : String
  OperatorsOld : List (Nat × String)
deriving DecidableEq, Repr

/-- `(*ResharingRequest).parseResharingRequest`: threshold and validator PK
are taken verbatim from the flags; the `operator` tokens fill `Operators` and
the `old-operator` tokens fill `OperatorsOld`, failing on the first bad
token. -/
def parseResharingRequest (c : CliInput) : Except ParseError ResharingRequest :=
  match parseOperatorList c.operator [] with
  | .error e => .error e
  | .ok ops =>
    match parseOperatorList c.oldOperator [] with
    | .error e => .error e
    | .ok opsOld =>
      .ok { Operators := ops, Threshold := c.threshold,
            ValidatorPK := c.validatorPK, OperatorsOld := opsOld }

/-- `(*ResharingRequest).newOperators`: the keys of `Operators` (Go map
iteration, determinized to insertion order). -/
def newOperators (r : ResharingRequest) : List Nat :=
  r.Operators.map Prod.fst

/-- `(*ResharingRequest).oldOperators`: the keys of `OperatorsOld`. -/
def oldOperators (r : ResharingRequest) : List Nat :=
  r.OperatorsOld.map Prod.fst

/-- `alloperators := append(operators, operatorsOld...)` in
`HandleResharing`: plain concatenation, duplicates kept. -/
def alloperatorIDs (r : ResharingRequest) : List Nat :=
  newOperators r ++ oldOperators r

/-- `(*ResharingRequest).nodeAddress`: if the ID is a key of `Operators` use
that address, otherwise index `OperatorsOld` (zero value `""` when absent
there too). -/
def nodeAddress (r : ResharingRequest) (operatorID : Nat) : String :=
  if mapHas r.Operators operatorID then mapGet r.Operators operatorID
  else mapGet r.OperatorsOld operatorID

/-- Address resolution as claim C9 words it: an ID present in the new map
resolves to the new map's address; an ID present only in the old map to the
old map's address; an ID present in neither to the empty string. -/
def nodeAddressSpec (r : ResharingRequest) (operatorID : Nat) : String :=
  match lookup r.Operators operatorID with
  | some a => a
  | none =>
    match lookup r.OperatorsOld operatorID with
    | some a => a
    | none => ""

/-! ## Message composition (`initMsgForResharing`)

The encoders of the ssv-spec dependency (`ReshareMessageData.Encode`,
`SignedMessage.Encode`, `SSVMessage.Encode`) are external collaborators; the
composer is parametrized over them so that their error behaviour can be
quantified. -/

/-- The payload handed to `testingutils.ReshareMessageData`. -/
structure ReshareParams where
  operatorIDs : List Nat
  threshold : Nat
  validatorPK : List Nat
  operatorIDsOld : List Nat
deriving DecidableEq, Repr

/-- Opaque tag `dkg.ReshareMsgType` (its numeric value is irrelevant to every
claim). -/
def ReshareMsgType : Nat := 5

/-- Opaque tag `types.DKGMsgType`. -/
def DKGMsgType : Nat := 2

/-- The `dkg.Message` envelope. -/
structure DKGMessage where
  MsgType : Nat
  Identifier : List Nat
  Data : List Nat
deriving DecidableEq, Repr

/-- The signed envelope produced by `testingutils.SignDKGMsg` (the signature
bytes themselves are opaque and not modelled; the signer ID is the hardcoded
operator 1 of the testing key set). -/
structure SignedDKGMessage where
  Signer : Nat
  Msg : DKGMessage
deriving DecidableEq, Repr

/-- `testingutils.SignDKGMsg(ks.DKGOperators[1].EncryptionKey, 1, msg)`. -/
def SignDKGMsg (signer : Nat) (msg : DKGMessage) : SignedDKGMessage :=
  { Signer := signer, Msg := msg }

/-- The outer `types.SSVMessage` transport envelope. -/
structure SSVMessage where
  MsgType : Nat
  Data : List Nat
deriving DecidableEq, Repr

/-- The Go conversion `uint16(request.Threshold)`. -/
def toUInt16 (i : Int) : Nat :=
  (i % (2 ^ 16 : Int)).toNat

/-- The three external encoders `initMsgForResharing` calls, as fallible
collaborators. -/
structure Encoders where
  reshareEncode : ReshareParams → Except String (List Nat)
  signedEncode : SignedDKGMessage → Except String (List Nat)
  ssvEncode : SSVMessage → Except String (List Nat)

/-- The Go idiom `byts, _ := x.Encode()`: the error result is discarded and
the byte result (nil on failure) is used as-is. -/
def discardErr (e : Except String (List Nat)) : List Nat :=
  match e with
  | .ok b => b
  | .error _ => []

/-- Whether an encoding result is a success. -/
def isOkBytes (e : Except String (List Nat)) : Bool :=
  match e with
  | .ok _ => true
  | .error _ => false

/-- `(*ResharingRequest).initMsgForResharing`: hex-decode the validator PK
(propagating its error), build the reshare payload, encode it DISCARDING the
error, sign and encode the envelope DISCARDING the error, then encode the
outer `SSVMessage`, whose error alone is returned. -/
def initMsgForResharing (E : Encoders) (r : ResharingRequest) (requestID : List Nat) :
    Except String (List Nat) :=
  match hexDecode r.ValidatorPK with
  | none => .error hexErrMsg
  | some vk =>
    let reshare : ReshareParams :=
      { operatorIDs := newOperators r, threshold := toUInt16 r.Threshold,
        validatorPK := vk, operatorIDsOld := oldOperators r }
    let reshareBytes := discardErr (E.reshareEncode reshare)
    let reshareMsg := SignDKGMsg 1
      { MsgType := ReshareMsgType, Identifier := requestID, Data := reshareBytes }
    let byts := discardErr (E.signedEncode reshareMsg)
    E.ssvEncode { MsgType := DKGMsgType, Data := byts }

/-! ## The HTTP world and the orchestration run

Each HTTP POST's outcome is either a transport error or a status code,
supplied by an environment.  A run records the network calls it makes (and
the final success print) as an event trace. -/

/-- Outcome of one HTTP POST. -/
inductive PostResult where
  | transportError (msg : String)
  | status (code : Nat)
deriving DecidableEq, Repr

/-- The environment a resharing run executes against: the messenger's
response to the topic-creation POST, and each operator endpoint's response to
the `/consume` POST. -/
structure Env where
  createTopicResp : PostResult
  consumeResp : Nat → String → PostResult

/-- Observable actions of a run. -/
inductive Event where
  /-- the POST of a `TopicJSON` to `{messenger}/topics` -/
  | topicCreate (topicName : String) (subscribers : List String)
  /-- the POST of the init message to `{addr}/consume` for one operator -/
  | consumePost (operatorID : Nat) (addr : String)
  /-- the final `fmt.Printf` line of a fully successful run -/
  | printOutput (line : String)
deriving DecidableEq, Repr

/-- The `TopicJSON` body built by `messenger.Client.CreateTopic`: the
subscribers are appended one by one from the operator ID list, each
stringified with `strconv.Itoa(int(operatorID))`. -/
structure TopicJSON where
  TopicName : String
  Subscribers : List String
deriving DecidableEq, Repr

/-- The Go conversion `int(operatorID)` from the unsigned 64-bit operator ID:
two's-complement reinterpretation, so values at or above 2^63 become
negative. -/
def intOfOperatorID (n : Nat) : Int :=
  if n < 2 ^ 63 then (n : Int) else (n : Int) - 2 ^ 64

/-- Go `strconv.Itoa` on a 64-bit `int` value: signed decimal rendering. -/
def goItoa (i : Int) : String :=
  if i < 0 then "-" ++ toString (-i).toNat else toString i.toNat

/-- The subscriber rendering `strconv.Itoa(int(operatorID))` used by
`CreateTopic` (client.go): operator IDs at or above 2^63 render as negative
decimal strings. -/
def operatorIDString (n : Nat) : String :=
  goItoa (intOfOperatorID n)

/-- The topic body `CreateTopic` posts for a given request ID and operator
list. -/
def topicJSONFor (requestID : String) (l : List Nat) : TopicJSON :=
  { TopicName := requestID,
    Subscribers := l.foldl (fun acc operatorID => acc ++ [operatorIDString operatorID]) [] }

/-- Result of `messenger.Client.CreateTopic`'s POST: a transport error is
returned as-is, a non-200 status becomes the fixed createTopic error. -/
def CreateTopic (env : Env) : Except String Unit :=
  match env.createTopicResp with
  | .transportError e => .error e
  | .status c => if c = 200 then .ok () else .error "failed to call createTopic on messenger"

/-- `(*CliHandler).sendReshareMsg`: POST the data to `{addr}/consume`; a
transport error is returned as-is, a non-200 status becomes an error naming
the status code and operator ID.  (The data does not influence the modelled
outcome, which the environment determines per operator and address.) -/
def sendReshareMsg (env : Env) (operatorID : Nat) (addr : String) (_data : List Nat) :
    Except String Unit :=
  match env.consumeResp operatorID addr with
  | .transportError e => .error e
  | .status c =>
    if c = 200 then .ok ()
    else .error ("failed to send reshare message with code " ++ toString c ++
      " to operator " ++ toString operatorID)

/-- Whether delivery to one operator succeeds in the given environment. -/
def sendOk (env : Env) (r : ResharingRequest) (data : List Nat) (op : Nat) : Bool :=
  match sendReshareMsg env op (nodeAddress r op) data with
  | .ok _ => true
  | .error _ => false

/-- The delivery loop of `HandleResharing`: iterate the operator list,
resolve each address, POST, and RETURN the first error (so later operators
are not attempted). -/
def deliveryLoop (env : Env) (r : ResharingRequest) (data : List Nat) :
    List Nat → List Event → Except String Unit × List Event
  | [], evs => (.ok (), evs)
  | opID :: rest, evs =>
    let addr := nodeAddress r opID
    match sendReshareMsg env opID addr data with
    | .error e => (.error e, evs ++ [Event.consumePost opID addr])
    | .ok _ => deliveryLoop env r data rest (evs ++ [Event.consumePost opID addr])

/-- Error-message prefixes of the `fmt.Errorf("...: %w", err)` wrappers in
`HandleResharing` (the `createa` typo is the source's). -/
def parseFailMsg : String := "HandleResharing: failed to parse resharing request: "

/-- Prefix of the topic-provisioning failure wrapper. -/
def topicFailMsg : String :=
  "HandleResharing: failed to createa new topic on messenger service: "

/-- Prefix of the message-composition failure wrapper. -/
def initFailMsg : String := "HandleResharing: failed to generate init message for keygen: "

/-- The success line printed at the end of a fully successful run. -/
def sentMsg (requestIDInHex : String) : String :=
  "resharing init request sent with ID: " ++ requestIDInHex

/-- The single event a run has emitted once `CreateTopic` has been called:
the topic POST with the hex request ID and the stringified concatenated
operator list. -/
def startEvents (r : ResharingRequest) (requestID : List Nat) : List Event :=
  [Event.topicCreate (hexEncode requestID)
    (topicJSONFor (hexEncode requestID) (alloperatorIDs r)).Subscribers]

/-- The part of `HandleResharing` after a successful parse: create the topic
(fatal on failure), compose the init message (fatal on failure), then run the
delivery loop over `alloperators`, printing the session ID only when every
delivery succeeded. -/
def runAfterParse (E : Encoders) (env : Env) (r : ResharingRequest) (requestID : List Nat) :
    Except String Unit × List Event :=
  match CreateTopic env with
  | .error e => (.error (topicFailMsg ++ e), startEvents r requestID)
  | .ok _ =>
    match initMsgForResharing E r requestID with
    | .error e => (.error (initFailMsg ++ e), startEvents r requestID)
    | .ok initMsgBytes =>
      match deliveryLoop env r initMsgBytes (alloperatorIDs r) (startEvents r requestID) with
      | (.error e, evs2) => (.error e, evs2)
      | (.ok _, evs2) =>
        (.ok (), evs2 ++ [Event.printOutput (sentMsg (hexEncode requestID))])

/-- `(*CliHandler).HandleResharing`, with the random 16-byte request ID
(`getRandRequestID`) supplied as a parameter.  Returns the call's result and
the trace of network calls (plus the final print) it performed. -/
def HandleResharing (E : Encoders) (env : Env) (c : CliInput) (requestID : List Nat) :
    Except String Unit × List Event :=
  match parseResharingRequest c with
  | .error e => (.error (parseFailMsg ++ parseErrorMsg e), [])
  | .ok r => runAfterParse E env r requestID

/-! ## Registration retry (`messenger.Client.RegisterOperatorNode`) -/

/-- Outcome of a `RegisterOperatorNode` call.  `regPanic` models the Go
runtime panic that the non-200 branch triggers: the branch builds its error
message with `err.Error()`, but at that point `err` is the nil transport
error of the successful POST (the non-nil error of the transport branch was
a shadowing re-declaration), so the method call dereferences nil. -/
inductive RegResult where
  | regOk
  | regFailed (errors : List String)
  | regPanic
deriving DecidableEq, Repr

/-- The body of the retry loop of `RegisterOperatorNode`, over the remaining
attempt numbers, accumulating the per-attempt errors; returns the result and
the list of attempts actually made.  A transport error is recorded and the
loop continues; a 200 breaks out with success; any other status reaches
`err.Error()` on the nil `err` and panics. -/
def registerGo (resp : Nat → PostResult) : List Nat → List String → RegResult × List Nat
  | [], errors => (.regFailed errors, [])
  | t :: rest, errors =>
    match resp t with
    | .transportError e =>
      let r := registerGo resp rest
        (errors ++ ["failed to make request to messenger: " ++ e])
      (r.1, t :: r.2)
    | .status c =>
      if c = 200 then (.regOk, [t]) else (.regPanic, [t])

/-- `messenger.Client.RegisterOperatorNode` with `numtries = 3`: attempts are
numbered 1, 2, 3; exhausting them returns the aggregated error list
(`"failed to register this node even after 3 tries with errors ..."`,
carrying every recorded attempt error). -/
def RegisterOperatorNode (resp : Nat → PostResult) : RegResult × List Nat :=
  registerGo resp [1, 2, 3] []

/-! ## Event classifiers -/

/-- Whether an event is the topic-creation POST. -/
def isTopicCreate : Event → Bool
  | .topicCreate _ _ => true
  | _ => false

/-- Whether an event is a delivery POST to an operator's `/consume`. -/
def isConsumePost : Event → Bool
  | .consumePost _ _ => true
  | _ => false

/-- Whether an event is the final success print. -/
def isPrintOutput : Event → Bool
  | .printOutput _ => true
  | _ => false

/-- The subscriber list of a topic-creation event. -/
def subsOf : Event → Option (List String)
  | .topicCreate _ subs => some subs
  | _ => none

/-! ## Concrete scenario inputs -/

/-- A fixed 16-byte request ID standing in for `getRandRequestID` (the claims
never depend on its randomness, only on its hex encoding being reported). -/
def rid0 : List Nat := List.replicate 16 0

/-- Encoders whose three encode steps all succeed (with empty byte output —
the payload bytes are opaque to every claim). -/
def okEncoders : Encoders :=
  { reshareEncode := fun _ => .ok [], signedEncode := fun _ => .ok [],
    ssvEncode := fun _ => .ok [1] }

/-- Encoders whose reshare-parameters encoding FAILS while the outer
`SSVMessage` encoding succeeds: exercises the discarded intermediate error. -/
def badEncoders : Encoders :=
  { reshareEncode := fun _ => .error "reshare encode failed",
    signedEncode := fun _ => .ok [], ssvEncode := fun _ => .ok [1] }

/-- Environment where every POST returns 200. -/
def envAll200 : Env :=
  { createTopicResp := .status 200, consumeResp := fun _ _ => .status 200 }

/-- Environment where the topic POST returns 200 but delivery to operator 1
returns status 500 (and every other delivery returns 200). -/
def envOp1Fails : Env :=
  { createTopicResp := .status 200,
    consumeResp := fun op _ => if op = 1 then .status 500 else .status 200 }

/-- Environment where the topic POST itself returns status 500. -/
def envTopicFails : Env :=
  { createTopicResp := .status 500, consumeResp := fun _ _ => .status 200 }

/-- CLI input with one new operator (1 at `http://a`) and one old operator
(2 at `http://b`), threshold 2, valid validator PK. -/
def cTwoOps : CliInput :=
  { threshold := 2, validatorPK := "ab12",
    operator := ["1=http://a"], oldOperator := ["2=http://b"] }

/-- The request `cTwoOps` parses to. -/
def rTwoOps : ResharingRequest :=
  { Operators := [(1, "http://a")], Threshold := 2, ValidatorPK := "ab12",
    OperatorsOld := [(2, "http://b")] }

/-- CLI input whose validator PK `"zz"` is not valid hex. -/
def cBadHex : CliInput :=
  { threshold := 2, validatorPK := "zz",
    operator := ["1=http://a"], oldOperator := [] }

/-- The request `cBadHex` parses to (parsing does not validate the hex). -/
def rBadHex : ResharingRequest :=
  { Operators := [(1, "http://a")], Threshold := 2, ValidatorPK := "zz",
    OperatorsOld := [] }

/-- The spec's overlap scenario: new operators `{1=http://a, 2=http://b}`,
old operators `{1=http://a, 3=http://c}`, threshold 2, validator PK
`"ab12"`. -/
def cScenario : CliInput :=
  { threshold := 2, validatorPK := "ab12",
    operator := ["1=http://a", "2=http://b"],
    oldOperator := ["1=http://a", "3=http://c"] }

/-- An overlap scenario built only from singleton maps (so no Go
map-iteration-order ambiguity exists): operator 1 is both the only new and
the only old operator. -/
def cOverlap : CliInput :=
  { threshold := 2, validatorPK := "ab12",
    operator := ["1=http://a"], oldOperator := ["1=http://a"] }

/-- The request `cOverlap` parses to. -/
def rOverlap : ResharingRequest :=
  { Operators := [(1, "http://a")], Threshold := 2, ValidatorPK := "ab12",
    OperatorsOld := [(1, "http://a")] }

/-- A parsed request with one operator and a valid validator PK, for
exercising the composer alone. -/
def rOneOp : ResharingRequest :=
  { Operators := [(1, "http://a")], Threshold := 2, ValidatorPK := "ab12",
    OperatorsOld := [] }

/-- CLI input parsing to `rOneOp`. -/
def cOneOp : CliInput :=
  { threshold := 2, validatorPK := "ab12",
    operator := ["1=http://a"], oldOperator := [] }

/-! ## Characterization lemmas for the run -/

/-- The result of the delivery loop alone: the first failing delivery's
error, or success when none fails. -/
def deliveryResult (env : Env) (r : ResharingRequest) (data : List Nat) :
    List Nat → Except String Unit
  | [] => .ok ()
  | opID :: rest =>
    match sendReshareMsg env opID (nodeAddress r opID) data with
    | .error e => .error e
    | .ok _ => deliveryResult env r data rest

/-- The operators the delivery loop actually attempts: the prefix of
successful deliveries, plus the first failing operator when there is one. -/
def attemptedOps (env : Env) (r : ResharingRequest) (data : List Nat) :
    List Nat → List Nat
  | [] => []
  | opID :: rest =>
    if sendOk env r data opID then opID :: attemptedOps env r data rest
    else [opID]

theorem deliveryLoop_spec (env : Env) (r : ResharingRequest) (data : List Nat)
    (ops : List Nat) (evs : List Event) :
    deliveryLoop env r data ops evs =
      (deliveryResult env r data ops,
       evs ++ (attemptedOps env r data ops).map
         (fun op => Event.consumePost op (nodeAddress r op))) := by
  induction ops generalizing evs with
  | nil => simp [deliveryLoop, deliveryResult, attemptedOps]
  | cons opID rest ih =>
    cases h : sendReshareMsg env opID (nodeAddress r opID) data with
    | error e =>
      simp [deliveryLoop, deliveryResult, attemptedOps, sendOk, h]
    | ok u =>
      simp [deliveryLoop, deliveryResult, attemptedOps, sendOk, h, ih]

theorem deliveryResult_ok_iff (env : Env) (r : ResharingRequest) (data : List Nat)
    (ops : List Nat) :
    deliveryResult env r data ops = .ok () ↔
      ∀ op ∈ ops, sendOk env r data op = true := by
  induction ops with
  | nil => simp [deliveryResult]
  | cons opID rest ih =>
    cases h : sendReshareMsg env opID (nodeAddress r opID) data with
    | error e => simp [deliveryResult, h, sendOk]
    | ok u => cases u; simp [deliveryResult, h, sendOk, ih]

theorem attemptedOps_all_ok (env : Env) (r : ResharingRequest) (data : List Nat)
    (ops : List Nat) (h : ∀ op ∈ ops, sendOk env r data op = true) :
    attemptedOps env r data ops = ops := by
  induction ops with
  | nil => rfl
  | cons opID rest ih =>
    have h1 : sendOk env r data opID = true := h opID (by simp)
    simp [attemptedOps, h1]
    exact ih (fun op hop => h op (by simp [hop]))

theorem filter_isTopicCreate_consumeMap (f : Nat → String) (l : List Nat) :
    (l.map (fun op => Event.consumePost op (f op))).filter isTopicCreate = [] := by
  induction l with
  | nil => rfl
  | cons op rest ih => simp [isTopicCreate, ih]

theorem filter_isConsumePost_consumeMap (f : Nat → String) (l : List Nat) :
    (l.map (fun op => Event.consumePost op (f op))).filter isConsumePost =
      l.map (fun op => Event.consumePost op (f op)) := by
  induction l with
  | nil => rfl
  | cons op rest ih => simp [isConsumePost, ih]

theorem filter_isPrintOutput_consumeMap (f : Nat → String) (l : List Nat) :
    (l.map (fun op => Event.consumePost op (f op))).filter isPrintOutput = [] := by
  induction l with
  | nil => rfl
  | cons op rest ih => simp [isPrintOutput, ih]

theorem filterMap_subsOf_consumeMap (f : Nat → String) (l : List Nat) :
    (l.map (fun op => Event.consumePost op (f op))).filterMap subsOf = [] := by
  induction l with
  | nil => rfl
  | cons op rest ih => simp [subsOf, ih]

theorem subscribers_foldl (l : List Nat) (acc : List String) :
    l.foldl (fun acc operatorID => acc ++ [operatorIDString operatorID]) acc =
      acc ++ l.map (fun operatorID => operatorIDString operatorID) := by
  induction l generalizing acc with
  | nil => simp
  | cons x rest ih => simp [ih]

theorem topicJSONFor_subscribers (requestID : String) (l : List Nat) :
    (topicJSONFor requestID l).Subscribers = l.map (fun i => operatorIDString i) := by
  simpa [topicJSONFor] using subscribers_foldl l []

theorem HandleResharing_parse_ok (E : Encoders) (env : Env) (c : CliInput)
    (requestID : List Nat) (r : ResharingRequest)
    (hp : parseResharingRequest c = .ok r) :
    HandleResharing E env c requestID = runAfterParse E env r requestID := by
  simp [HandleResharing, hp]

/-! ## Claim C9 -/

/-- C9: for an operator ID present in both maps, address resolution returns
the new map's address (new takes precedence); for an ID only in the old map,
the old map's address; for an ID in neither, the empty string — i.e.
`nodeAddress` refines the resolution rule `nodeAddressSpec` stated from the
claim. -/
theorem C9_nodeAddress_precedence (r : ResharingRequest) (operatorID : Nat) :
    nodeAddress r operatorID = nodeAddressSpec r operatorID := by
  unfold nodeAddress nodeAddressSpec mapHas mapGet
  cases h1 : lookup r.Operators operatorID <;>
    cases h2 : lookup r.OperatorsOld operatorID <;> simp [h1, h2]

/-! ## Claims C5 and C10 (registration retry) -/

/-- C5: evaluation of `RegisterOperatorNode` at the three stub environments
of the claim.  First-attempt success terminates after exactly one attempt;
three transport errors exhaust exactly 3 attempts and aggregate all three
errors; but an attempt whose POST succeeds with a non-200 status PANICS
(nil `err.Error()` dereference) instead of recording the error and retrying,
contradicting the specified retry contract. -/
theorem C5_registration_retry_evaluation :
    RegisterOperatorNode (fun _ => PostResult.status 200) = (RegResult.regOk, [1]) ∧
    RegisterOperatorNode (fun t => PostResult.transportError ("refused " ++ toString t)) =
      (RegResult.regFailed
        ["failed to make request to messenger: refused 1",
         "failed to make request to messenger: refused 2",
         "failed to make request to messenger: refused 3"], [1, 2, 3]) ∧
    RegisterOperatorNode (fun _ => PostResult.status 500) = (RegResult.regPanic, [1]) :=
  ⟨rfl, rfl, rfl⟩

/-- C10: in the run whose first attempt is a transport error and whose second
attempt returns status 404, the non-200 branch is reached with the outer
`err` equal to nil, and the error-formatting expression `err.Error()`
dereferences it — the run panics after 2 attempts instead of recording the
attempt error. -/
theorem C10_non200_branch_panics :
    RegisterOperatorNode
      (fun t => if t = 1 then PostResult.transportError "refused"
                else PostResult.status 404) =
      (RegResult.regPanic, [1, 2]) := rfl

/-! ## Claim C7 (operator token parsing) -/

/-- C7 counterexample: the token `"-1=http://a"`, whose ID part parses as the
negative integer −1, does NOT fail with `InvalidOperatorID`: parsing succeeds
and stores the address under the ID wrapped to 2^64 − 1. -/
theorem C7_counterexample :
    parseOperatorList ["-1=http://a"] [] =
      Except.ok [(18446744073709551615, "http://a")] := rfl

/-- C7 (amended): a token that does not split on `=` into exactly two parts
fails with the malformed-spec error identifying the (trimmed) token; a token
whose ID part fails `strconv.Atoi` (bad syntax or out of the signed 64-bit
range) fails with the Atoi error; but a token whose ID part parses as ANY
integer — negative included — is accepted, the ID being converted to the
unsigned 64-bit operator ID. -/
theorem C7_parse_token_behavior (tok : String) (rest : List String)
    (m : List (Nat × String)) :
    ((goSplitEq (trimSpaces tok)).length ≠ 2 →
      parseOperatorList (tok :: rest) m = .error (.malformed (trimSpaces tok))) ∧
    (∀ idPart addrPart, goSplitEq (trimSpaces tok) = [idPart, addrPart] →
      goAtoi idPart = none →
      parseOperatorList (tok :: rest) m = .error (.atoiFailure idPart)) ∧
    (∀ idPart addrPart i, goSplitEq (trimSpaces tok) = [idPart, addrPart] →
      goAtoi idPart = some i →
      parseOperatorList (tok :: rest) m =
        parseOperatorList rest (mapInsert m (toOperatorID i) addrPart)) := by
  refine ⟨?_, ?_, ?_⟩
  · intro hlen
    rcases h : goSplitEq (trimSpaces tok) with _ | ⟨a, _ | ⟨b, _ | ⟨d, l⟩⟩⟩
    · simp [parseOperatorList, h]
    · simp [parseOperatorList, h]
    · rw [h] at hlen; simp at hlen
    · simp [parseOperatorList, h]
  · intro idPart addrPart h hatoi
    simp [parseOperatorList, h, hatoi]
  · intro idPart addrPart i h hatoi
    simp [parseOperatorList, h, hatoi]

/-- C7 witness: a well-formed token is accepted and stored, via the third
part of `C7_parse_token_behavior` at the token `"7=http://x"`. -/
theorem C7_witness :
    parseOperatorList ["7=http://x"] [] = Except.ok [(7, "http://x")] := by
  have h := (C7_parse_token_behavior "7=http://x" [] []).2.2 "7" "http://x" 7 rfl rfl
  exact h.trans rfl

/-! ## Claim C8 (message composition error handling) -/

/-- C8 counterexample: with encoders whose reshare-parameters encoding always
fails but whose outer `SSVMessage` encoding succeeds, `initMsgForResharing`
SUCCEEDS (the intermediate error is silently discarded by `byts, _ :=`), and
the session proceeds to delivery instead of aborting with a composition
failure. -/
theorem C8_counterexample :
    initMsgForResharing badEncoders rOneOp rid0 = Except.ok [1] ∧
    ((HandleResharing badEncoders envAll200 cOneOp rid0).2.filter
      isConsumePost).length = 1 :=
  ⟨rfl, rfl⟩

/-- C8 (amended): an invalid-hex validator key makes composition fail with
the hex error (which `HandleResharing` wraps and aborts on, per C4); but the
reshare-parameters and signed-envelope encoding errors are discarded —
whenever the validator key is valid hex and the outer `SSVMessage` encoding
succeeds, composition succeeds regardless of the two intermediate encoders'
failures. -/
theorem C8_intermediate_encode_errors_discarded (E : Encoders)
    (r : ResharingRequest) (requestID : List Nat) :
    (hexDecode r.ValidatorPK = none →
      initMsgForResharing E r requestID = .error hexErrMsg) ∧
    (∀ vk, hexDecode r.ValidatorPK = some vk →
      (∀ m, isOkBytes (E.ssvEncode m) = true) →
      isOkBytes (initMsgForResharing E r requestID) = true) := by
  constructor
  · intro h
    simp [initMsgForResharing, h]
  · intro vk hvk hssv
    simp [initMsgForResharing, hvk]
    exact hssv _

/-- C8 witness: `C8_intermediate_encode_errors_discarded` applied to the
failing-reshare-encoder environment at a concrete request. -/
theorem C8_witness :
    isOkBytes (initMsgForResharing badEncoders rOneOp rid0) = true :=
  (C8_intermediate_encode_errors_discarded badEncoders rOneOp rid0).2 [171, 18] rfl
    (fun _ => rfl)

/-! ## Claim C2 (invalid validator PK hex) -/

/-- C2 counterexample: with validator PK `"zz"`, parsing SUCCEEDS (no hex
validation there), and the run against an all-200 messenger performs the
topic-creation POST (so a topic IS created) before failing in message
composition — contradicting "fails during request parsing ... no topic is
created". -/
theorem C2_counterexample :
    parseResharingRequest cBadHex = Except.ok rBadHex ∧
    ((HandleResharing okEncoders envAll200 cBadHex rid0).2.filter
      isTopicCreate).length = 1 ∧
    (HandleResharing okEncoders envAll200 cBadHex rid0).1 =
      Except.error (initFailMsg ++ hexErrMsg) :=
  ⟨rfl, rfl, rfl⟩

/-- C2 (amended): an invalid-hex validator PK is detected only during message
composition, after the topic-creation POST: the run fails (never succeeds),
no delivery is ever attempted, and when topic creation succeeded the failure
is the wrapped hex-decoding error. -/
theorem C2_invalid_hex_fails_in_composition (E : Encoders) (env : Env)
    (c : CliInput) (requestID : List Nat) (r : ResharingRequest)
    (hp : parseResharingRequest c = .ok r)
    (hhex : hexDecode r.ValidatorPK = none) :
    (HandleResharing E env c requestID).1 ≠ .ok () ∧
    (HandleResharing E env c requestID).2.filter isConsumePost = [] ∧
    (CreateTopic env = .ok () →
      (HandleResharing E env c requestID).1 = .error (initFailMsg ++ hexErrMsg)) := by
  rw [HandleResharing_parse_ok E env c requestID r hp]
  have hmsg : initMsgForResharing E r requestID = .error hexErrMsg := by
    simp [initMsgForResharing, hhex]
  cases hct : CreateTopic env with
  | error e =>
    simp [runAfterParse, hct, hmsg, startEvents, isConsumePost]
  | ok u =>
    cases u
    simp [runAfterParse, hct, hmsg, startEvents, isConsumePost]

/-- C2 witness: `C2_invalid_hex_fails_in_composition` at the `"zz"` scenario
against the all-200 messenger: no delivery POST occurs. -/
theorem C2_witness :
    (HandleResharing okEncoders envAll200 cBadHex rid0).2.filter isConsumePost = [] :=
  (C2_invalid_hex_fails_in_composition okEncoders envAll200 cBadHex rid0 rBadHex
    rfl rfl).2.1

/-! ## Claim C4 (fatal-abort ordering) -/

/-- C4: once parsing succeeds, the run performs the topic-creation POST
exactly once; and if topic provisioning fails, or message composition fails,
the whole call fails and no delivery POST is ever made. -/
theorem C4_fatal_abort_ordering (E : Encoders) (env : Env) (c : CliInput)
    (requestID : List Nat) (r : ResharingRequest)
    (hp : parseResharingRequest c = .ok r) :
    ((HandleResharing E env c requestID).2.filter isTopicCreate).length = 1 ∧
    (CreateTopic env ≠ .ok () →
      (HandleResharing E env c requestID).1 ≠ .ok () ∧
      (HandleResharing E env c requestID).2.filter isConsumePost = []) ∧
    (∀ e, initMsgForResharing E r requestID = .error e →
      (HandleResharing E env c requestID).1 ≠ .ok () ∧
      (HandleResharing E env c requestID).2.filter isConsumePost = []) := by
  rw [HandleResharing_parse_ok E env c requestID r hp]
  cases hct : CreateTopic env with
  | error e0 =>
    refine ⟨?_, ?_, ?_⟩
    · simp [runAfterParse, hct, startEvents, isTopicCreate]
    · intro _
      simp [runAfterParse, hct, startEvents, isConsumePost]
    · intro e he
      simp [runAfterParse, hct, startEvents, isConsumePost]
  | ok u =>
    cases u
    cases hmsg : initMsgForResharing E r requestID with
    | error e0 =>
      refine ⟨?_, ?_, ?_⟩
      · simp [runAfterParse, hct, hmsg, startEvents, isTopicCreate]
      · intro hne
        exact absurd rfl hne
      · intro e he
        simp [runAfterParse, hct, hmsg, startEvents, isConsumePost]
    | ok bts =>
      have hdl := deliveryLoop_spec env r bts (alloperatorIDs r) (startEvents r requestID)
      refine ⟨?_, ?_, ?_⟩
      · cases hres : deliveryResult env r bts (alloperatorIDs r) with
        | error e1 =>
          simp only [runAfterParse, hct, hmsg, hdl, hres]
          simp [startEvents, isTopicCreate, List.filter_append,
            filter_isTopicCreate_consumeMap]
        | ok u1 =>
          cases u1
          simp only [runAfterParse, hct, hmsg, hdl, hres]
          simp [startEvents, isTopicCreate, List.filter_append,
            filter_isTopicCreate_consumeMap]
      · intro hne
        exact absurd rfl hne
      · intro e he
        exact absurd he (by simp)

/-- C4 witness: `C4_fatal_abort_ordering` where the messenger answers the
topic POST with status 500: one topic attempt, no delivery POSTs. -/
theorem C4_witness :
    ((HandleResharing okEncoders envTopicFails cTwoOps rid0).2.filter
      isTopicCreate).length = 1 ∧
    (HandleResharing okEncoders envTopicFails cTwoOps rid0).2.filter
      isConsumePost = [] := by
  have h := C4_fatal_abort_ordering okEncoders envTopicFails cTwoOps rid0 rTwoOps rfl
  exact ⟨h.1, (h.2.1 (fun hctr => nomatch hctr)).2⟩

/-! ## Claim C1 (per-operator failure independence) -/

/-- C1 counterexample: two participating operators, delivery to operator 1
answered with status 500 while operator 2 would answer 200 — the run attempts
only ONE delivery (not all N = 2) and raises the per-operator error instead
of returning a report with one failure and one success. -/
theorem C1_counterexample :
    ((HandleResharing okEncoders envOp1Fails cTwoOps rid0).2.filter
      isConsumePost).length = 1 ∧
    (HandleResharing okEncoders envOp1Fails cTwoOps rid0).1 =
      Except.error "failed to send reshare message with code 500 to operator 1" :=
  ⟨rfl, rfl⟩

/-- C1 (amended): after a successful setup, delivery proceeds sequentially
over the concatenated operator list and ABORTS at the first failure: the
delivery POSTs made are exactly the successful prefix plus the first failing
operator (all entries when none fails), and the call succeeds iff every
delivery succeeds. -/
theorem C1_delivery_aborts_on_first_failure (E : Encoders) (env : Env)
    (c : CliInput) (requestID : List Nat) (r : ResharingRequest) (bts : List Nat)
    (hp : parseResharingRequest c = .ok r)
    (hct : CreateTopic env = .ok ())
    (hmsg : initMsgForResharing E r requestID = .ok bts) :
    (HandleResharing E env c requestID).2.filter isConsumePost =
      (attemptedOps env r bts (alloperatorIDs r)).map
        (fun op => Event.consumePost op (nodeAddress r op)) ∧
    ((HandleResharing E env c requestID).1 = .ok () ↔
      ∀ op ∈ alloperatorIDs r, sendOk env r bts op = true) := by
  rw [HandleResharing_parse_ok E env c requestID r hp]
  have hdl := deliveryLoop_spec env r bts (alloperatorIDs r) (startEvents r requestID)
  cases hres : deliveryResult env r bts (alloperatorIDs r) with
  | error e1 =>
    constructor
    · simp only [runAfterParse, hct, hmsg, hdl, hres]
      simp [startEvents, List.filter_append, filter_isConsumePost_consumeMap,
        isConsumePost]
    · rw [← deliveryResult_ok_iff env r bts (alloperatorIDs r)]
      simp only [runAfterParse, hct, hmsg, hdl, hres]
  | ok u1 =>
    cases u1
    constructor
    · simp only [runAfterParse, hct, hmsg, hdl, hres]
      simp [startEvents, List.filter_append, filter_isConsumePost_consumeMap,
        isConsumePost]
    · rw [← deliveryResult_ok_iff env r bts (alloperatorIDs r)]
      simp only [runAfterParse, hct, hmsg, hdl, hres]

/-- C1 witness: `C1_delivery_aborts_on_first_failure` at the two-operator
scenario against an all-200 environment: every delivery succeeds, so the call
succeeds. -/
theorem C1_witness :
    (HandleResharing okEncoders envAll200 cTwoOps rid0).1 = Except.ok () :=
  ((C1_delivery_aborts_on_first_failure okEncoders envAll200 cTwoOps rid0 rTwoOps [1]
      rfl rfl rfl).2).mpr (by decide)

/-! ## Claim C6 (session identifier visibility) -/

/-- C6 counterexample: under a single delivery failure the caller does NOT
learn the session identifier: the run returns only the bare per-operator
error (which does not carry the request ID or any failure list) and never
prints the session-ID line. -/
theorem C6_counterexample :
    (HandleResharing okEncoders envOp1Fails cTwoOps rid0).1 =
      Except.error "failed to send reshare message with code 500 to operator 1" ∧
    (HandleResharing okEncoders envOp1Fails cTwoOps rid0).2.filter
      isPrintOutput = [] :=
  ⟨rfl, rfl⟩

/-- C6 (amended): the session identifier is reported only on FULL delivery
success: when every delivery succeeds the run prints the session-ID line and
returns success; when some delivery fails the run returns that first
failure's error and never prints the session identifier (and collects no
failure list). -/
theorem C6_session_id_only_on_full_success (E : Encoders) (env : Env)
    (c : CliInput) (requestID : List Nat) (r : ResharingRequest) (bts : List Nat)
    (hp : parseResharingRequest c = .ok r)
    (hct : CreateTopic env = .ok ())
    (hmsg : initMsgForResharing E r requestID = .ok bts) :
    ((∀ op ∈ alloperatorIDs r, sendOk env r bts op = true) →
      (HandleResharing E env c requestID).1 = .ok () ∧
      (HandleResharing E env c requestID).2.filter isPrintOutput =
        [Event.printOutput (sentMsg (hexEncode requestID))]) ∧
    (∀ e, deliveryResult env r bts (alloperatorIDs r) = .error e →
      (HandleResharing E env c requestID).1 = .error e ∧
      (HandleResharing E env c requestID).2.filter isPrintOutput = []) := by
  rw [HandleResharing_parse_ok E env c requestID r hp]
  have hdl := deliveryLoop_spec env r bts (alloperatorIDs r) (startEvents r requestID)
  constructor
  · intro hall
    have hres : deliveryResult env r bts (alloperatorIDs r) = .ok () :=
      (deliveryResult_ok_iff env r bts (alloperatorIDs r)).mpr hall
    simp only [runAfterParse, hct, hmsg, hdl, hres]
    simp [startEvents, List.filter_append, filter_isPrintOutput_consumeMap,
      isPrintOutput]
  · intro e hres
    simp only [runAfterParse, hct, hmsg, hdl, hres]
    simp [startEvents, List.filter_append, filter_isPrintOutput_consumeMap,
      isPrintOutput]

/-- C6 witness: `C6_session_id_only_on_full_success` against the all-200
environment: the session-ID line is printed. -/
theorem C6_witness :
    (HandleResharing okEncoders envAll200 cTwoOps rid0).2.filter isPrintOutput =
      [Event.printOutput (sentMsg (hexEncode rid0))] :=
  ((C6_session_id_only_on_full_success okEncoders envAll200 cTwoOps rid0 rTwoOps [1]
      rfl rfl rfl).1 (by decide)).2

/-! ## Claim C3 (union of operator sets and delivery targets) -/

/-- C3 counterexample: in the spec's overlap scenario (new `{1, 2}`, old
`{1, 3}`) the topic's subscriber list has FOUR entries (operator 1 appears
twice — the list is a concatenation, not a duplicate-free union) and FOUR
delivery POSTs are made, not three. -/
theorem C3_counterexample :
    ((HandleResharing okEncoders envAll200 cScenario rid0).2.filterMap
      subsOf).flatten.length = 4 ∧
    ((HandleResharing okEncoders envAll200 cScenario rid0).2.filter
      isConsumePost).length = 4 :=
  ⟨rfl, rfl⟩

/-- C3 (amended): the topic's subscriber list is the CONCATENATION of the
new and old operator ID lists, duplicates kept, each entry rendered as
`strconv.Itoa(int(id))` (negative decimal for IDs at or above 2^63), and
(when every delivery succeeds) one delivery POST is made per entry of that
concatenation — operators in both sets are delivered to twice. -/
theorem C3_subscribers_concat_with_duplicates (E : Encoders) (env : Env)
    (c : CliInput) (requestID : List Nat) (r : ResharingRequest) (bts : List Nat)
    (hp : parseResharingRequest c = .ok r)
    (hct : CreateTopic env = .ok ())
    (hmsg : initMsgForResharing E r requestID = .ok bts)
    (hall : ∀ op ∈ alloperatorIDs r, sendOk env r bts op = true) :
    (HandleResharing E env c requestID).2.filterMap subsOf =
      [(newOperators r ++ oldOperators r).map (fun i => operatorIDString i)] ∧
    (HandleResharing E env c requestID).2.filter isConsumePost =
      (newOperators r ++ oldOperators r).map
        (fun op => Event.consumePost op (nodeAddress r op)) := by
  rw [HandleResharing_parse_ok E env c requestID r hp]
  have hres : deliveryResult env r bts (alloperatorIDs r) = .ok () :=
    (deliveryResult_ok_iff env r bts (alloperatorIDs r)).mpr hall
  have hdl := deliveryLoop_spec env r bts (alloperatorIDs r) (startEvents r requestID)
  have hatt := attemptedOps_all_ok env r bts (alloperatorIDs r) hall
  constructor
  · simp only [runAfterParse, hct, hmsg, hdl, hres, hatt]
    simp [startEvents, List.filterMap_append, filterMap_subsOf_consumeMap, subsOf,
      topicJSONFor_subscribers, alloperatorIDs]
  · simp only [runAfterParse, hct, hmsg, hdl, hres, hatt]
    simp [startEvents, List.filter_append, filter_isConsumePost_consumeMap,
      isConsumePost, alloperatorIDs]

/-- C3 witness: `C3_subscribers_concat_with_duplicates` at the
singleton-overlap scenario (operator 1 is both the only new and the only old
operator, so no map-iteration-order ambiguity exists): the subscriber list is
`["1", "1"]` — the overlapping operator appears twice — and two delivery
POSTs are made to its address. -/
theorem C3_witness :
    (HandleResharing okEncoders envAll200 cOverlap rid0).2.filterMap subsOf =
      [["1", "1"]] ∧
    (HandleResharing okEncoders envAll200 cOverlap rid0).2.filter isConsumePost =
      [Event.consumePost 1 "http://a", Event.consumePost 1 "http://a"] := by
  have h := C3_subscribers_concat_with_duplicates okEncoders envAll200 cOverlap rid0
    rOverlap [1] rfl rfl rfl (by decide)
  exact ⟨h.1.trans rfl, h.2.trans rfl⟩

end RockxDkg
